import Mathlib

/- Shallow embedding of src/main.c from cyanreg/dec_tx_test.

   External library calls (FFmpeg) are modelled by an environment `Env`
   recording the result each call returns in a given run; the program text
   is translated into pure Lean functions over that environment.
   Observable actions (printf lines, the hw_device_ctx binding, the
   hardware-frames-context configuration, per-frame uploads, encoder
   submissions, the progress and time lines) are recorded as a trace of
   `Event`s.  Reads of `argv` return `Option String`: index `argc` holds
   the terminating null pointer of the C argv array, so `strcmp` applied
   to a `none` argument dereferences NULL, which is undefined behaviour
   (`ExitReason.ub`).  The string arguments that the error printfs format
   with av_err2str / %s are elided from the print payloads. -/

namespace DecTxTest

/- The pixel-format enum.  The formats named in src/main.c are explicit
   constructors; every other member of the C enum is `other code`. -/
inductive AVPixelFormat where
  | yuv420p
  | nv12
  | gbrap16
  | rgba64
  | rgb48le
  | rgb48be
  | gbrp16
  | bgr0
  | rgb0
  | vulkan
  | other (code : Nat)
  deriving DecidableEq

/- src/main.c lines 52-67. -/
def remap_pixfmt (fmt : AVPixelFormat) : AVPixelFormat :=
  match fmt with
  | .yuv420p => .nv12
  | .gbrap16 => .rgba64
  | .rgb48le => .gbrp16
  | .rgb48be => .gbrp16
  | .bgr0 => .rgb0
  | f => f

/- AVERROR(e) = -(e) on platforms where EDOM is positive. -/
def AVERROR (e : Int) : Int := -e

def ENOMEM : Int := 12

/- src/main.c line 192: int max_frames = 1000. -/
def max_frames : Nat := 1000

/- The fields of a decoded AVFrame that the program inspects. -/
structure Frame where
  width : Int
  height : Int
  format : AVPixelFormat
  hasHwFramesCtx : Bool
  deriving DecidableEq

/- The fields of in_avctx that the program reads after the probe decode. -/
structure DecCtx where
  pix_fmt : AVPixelFormat
  sw_pix_fmt : AVPixelFormat
  width : Int
  height : Int
  deriving DecidableEq

/- Results of every external library call made by main, plus argv.
   Per-iteration results are functions of the loop index. -/
structure Env where
  argv : List String
  openInputErr : Int
  findStreamErr : Int
  decAllocOk : Bool
  paramsErr : Int
  hwdevErr : Int
  openDecErr : Int
  pktAllocOk : Bool
  readFrameErr : Int
  probeSendErr : Int
  probeRecvErr : Int
  dec : DecCtx
  hwaccel : Bool
  hwfcAllocOk : Bool
  hwfcInitErr : Int
  encAllocOk : Bool
  openEncErr : Int
  timeStart : Int
  timeEnd : Int
  sendPktErr : Nat → Int
  recvFrameErr : Nat → Int
  frameAt : Nat → Frame
  getBufErr : Nat → Int
  swsErr : Nat → Int
  hwGetBufErr : Nat → Int
  transferErr : Nat → Int
  sendFrameErr : Nat → Int
  recvPacketErr : Nat → Int

/- Observable actions of a run. -/
inductive Event where
  | print (s : String)
  | setHwDeviceCtx
  | allocHwfc (format sw_format : AVPixelFormat) (width height : Int)
  | reuseHwfc
  | hwGetBuffer
  | upload (srcFormat : AVPixelFormat)
  | sendFrame
  | recvPacket (err : Int)
  | progress (n : Int) (fmt : AVPixelFormat)
  | timeReport (seconds : ℚ)
  deriving DecidableEq

/- How a run of main ends. -/
inductive Outcome where
  | ok
  | exitCode (code : Int)
  | ub
  deriving DecidableEq

/- Why a run stopped before falling off the end of main. -/
inductive ExitReason where
  | code (c : Int)
  | ub
  deriving DecidableEq

def ExitReason.toOutcome : ExitReason → Outcome
  | .code c => .exitCode c
  | .ub => .ub

/- src/main.c lines 37-50: decode_frame forwards the first negative error,
   printing only for the send side; avcodec_receive_frame's result is
   returned unchecked. -/
def decode_frame (sendErr recvErr : Int) : Int × List Event :=
  if sendErr < 0 then
    (sendErr, [Event.print "Error submitting a packet for decoding"])
  else
    (recvErr, [])

/- strcmp(p, "1") == 0 where p is an argv slot; `none` models the argv
   null terminator (or an out-of-bounds pointer): strcmp then dereferences
   NULL, which is undefined behaviour. -/
def strcmpEq1 : Option String → Option Bool
  | none => none
  | some s => some (s == "1")

/- src/main.c lines 74-137: everything up to and including the probe
   decode.  The avcodec_alloc_context3 result is never tested against
   NULL: the guard at lines 90-93 re-tests the stale err from
   av_find_best_stream, so a NULL context is dereferenced afterwards. -/
def setupPre (env : Env) : Except (ExitReason × List Event) (List Event) :=
  if env.openInputErr < 0 then
    .error (.code (AVERROR env.openInputErr), [Event.print "Error opening input file"])
  else if env.findStreamErr < 0 then
    .error (.code (AVERROR env.findStreamErr), [Event.print "Error finding stream for file"])
  else if !env.decAllocOk then
    .error (.ub, [])
  else if env.paramsErr < 0 then
    .error (.code (AVERROR env.paramsErr), [Event.print "Error using codec parameters"])
  else if env.hwdevErr < 0 then
    .error (.code (AVERROR env.hwdevErr), [Event.print "Error creating device"])
  else
    match strcmpEq1 env.argv[3]? with
    | none => .error (.ub, [])
    | some isOne =>
      if env.openDecErr < 0 then
        .error (.code (AVERROR env.openDecErr),
          (if isOne then [Event.setHwDeviceCtx] else []) ++
            [Event.print "Error opening decoder"])
      else if !env.pktAllocOk then
        .error (.code ENOMEM, if isOne then [Event.setHwDeviceCtx] else [])
      else if env.readFrameErr < 0 then
        .error (.code (AVERROR env.readFrameErr),
          (if isOne then [Event.setHwDeviceCtx] else []) ++
            [Event.print "Error reading packet"])
      else if (decode_frame env.probeSendErr env.probeRecvErr).1 < 0 then
        .error (.code (AVERROR (decode_frame env.probeSendErr env.probeRecvErr).1),
          (if isOne then [Event.setHwDeviceCtx] else []) ++
            (decode_frame env.probeSendErr env.probeRecvErr).2 ++
            [Event.print "Error decoding frame"])
      else
        .ok ((if isOne then [Event.setHwDeviceCtx] else []) ++
          (decode_frame env.probeSendErr env.probeRecvErr).2)

/- src/main.c lines 139-164: the frame-context stage.  When the probed
   decoder pixel format is not hardware accelerated, a fresh frames
   context is allocated on the Vulkan device and configured; otherwise the
   decoder's own hw_frames_ctx is reused. -/
def frameCtx (env : Env) : Except (ExitReason × List Event) (List Event) :=
  if !env.hwaccel then
    if !env.hwfcAllocOk then
      .error (.code ENOMEM,
        [Event.print "Software decoding",
         Event.print "Creating frame context to upload hardware frames into"])
    else if env.hwfcInitErr < 0 then
      .error (.code (AVERROR env.hwfcInitErr),
        [Event.print "Software decoding",
         Event.print "Creating frame context to upload hardware frames into",
         Event.allocHwfc .vulkan (remap_pixfmt env.dec.pix_fmt) env.dec.width env.dec.height,
         Event.print "Error creating frames context"])
    else
      .ok [Event.print "Software decoding",
           Event.print "Creating frame context to upload hardware frames into",
           Event.allocHwfc .vulkan (remap_pixfmt env.dec.pix_fmt) env.dec.width env.dec.height]
  else
    .ok [Event.print "Hardware decoding", Event.reuseHwfc]

/- src/main.c lines 166-206: encoder setup and the startup banner.  The
   avcodec_alloc_context3 result for the encoder is never tested against
   NULL (the guard at lines 169-172 re-tests a stale err), so a NULL
   context is dereferenced by the field assignments that follow.  The
   banner guard at line 203 is argc > 4 && !strcmp(argv[4], "1"). -/
def encSetup (env : Env) : Except (ExitReason × List Event) (List Event) :=
  if !env.encAllocOk then
    .error (.ub, [])
  else if env.openEncErr < 0 then
    .error (.code (AVERROR env.openEncErr), [Event.print "Error initializing encoder"])
  else if env.argv.length > 4 then
    match strcmpEq1 env.argv[4]? with
    | none => .error (.ub, [])
    | some isOne =>
      if isOne then
        .ok [Event.print ("Decoding and encoding " ++ toString max_frames ++ " frames")]
      else
        .ok [Event.print ("Decoding " ++ toString max_frames ++ " frames")]
  else
    .ok [Event.print ("Decoding " ++ toString max_frames ++ " frames")]

/- src/main.c lines 216-217: the decoded frame is converted first when it
   has no hw_frames_ctx and its format differs from
   remap_pixfmt(in_avctx->sw_pix_fmt). -/
def convertNeeded (env : Env) (i : Nat) : Bool :=
  !(env.frameAt i).hasHwFramesCtx &&
    (env.frameAt i).format != remap_pixfmt env.dec.sw_pix_fmt

/- The pixel format of the frame the loop body ends up holding in `src`
   just before the upload block (lines 215-235). -/
def srcFormat (env : Env) (i : Nat) : AVPixelFormat :=
  if convertNeeded env i then remap_pixfmt env.dec.sw_pix_fmt
  else (env.frameAt i).format

/- The events of the upload block, lines 237-250. -/
def uploadEvents (env : Env) (i : Nat) : List Event :=
  if env.hwaccel then [] else [Event.hwGetBuffer, Event.upload (srcFormat env i)]

/- src/main.c lines 208-274: one iteration of the decode loop.
   Notes kept from the source:
   - the encode guard at line 252 is argc > 3 && !strcmp(argv[4], "1"),
     so with argc == 4 it dereferences argv[4], the argv null terminator;
   - the result of avcodec_receive_packet (line 259) is discarded: the
     guard at lines 260-263 re-tests the err from avcodec_send_frame,
     which is non-negative at that point, so that branch is dead. -/
def loopIter (env : Env) (i : Nat) : Except (ExitReason × List Event) (List Event) :=
  if (decode_frame (env.sendPktErr i) (env.recvFrameErr i)).1 < 0 then
    .error (.code (AVERROR (decode_frame (env.sendPktErr i) (env.recvFrameErr i)).1),
      (decode_frame (env.sendPktErr i) (env.recvFrameErr i)).2 ++
        [Event.print "Error decoding frame"])
  else if convertNeeded env i ∧ env.getBufErr i < 0 then
    .error (.code (AVERROR (env.getBufErr i)),
      (decode_frame (env.sendPktErr i) (env.recvFrameErr i)).2 ++
        [Event.print "Error allocating temporary frame"])
  else if convertNeeded env i ∧ env.swsErr i < 0 then
    .error (.code (AVERROR (env.swsErr i)),
      (decode_frame (env.sendPktErr i) (env.recvFrameErr i)).2 ++
        [Event.print "Error scaling frame"])
  else if !env.hwaccel ∧ env.hwGetBufErr i < 0 then
    .error (.code (AVERROR (env.hwGetBufErr i)),
      (decode_frame (env.sendPktErr i) (env.recvFrameErr i)).2 ++
        [Event.hwGetBuffer, Event.print "Error allocating hardware frame"])
  else if !env.hwaccel ∧ env.transferErr i < 0 then
    .error (.code (AVERROR (env.transferErr i)),
      (decode_frame (env.sendPktErr i) (env.recvFrameErr i)).2 ++
        uploadEvents env i ++ [Event.print "Error uploading frame"])
  else if env.argv.length > 3 then
    match strcmpEq1 env.argv[4]? with
    | none =>
      .error (.ub,
        (decode_frame (env.sendPktErr i) (env.recvFrameErr i)).2 ++ uploadEvents env i)
    | some isOne =>
      if isOne then
        if env.sendFrameErr i < 0 then
          .error (.code (AVERROR (env.sendFrameErr i)),
            (decode_frame (env.sendPktErr i) (env.recvFrameErr i)).2 ++
              uploadEvents env i ++ [Event.print "Error sending frame for encoding"])
        else if env.sendFrameErr i < 0 then
          .error (.code (AVERROR (env.sendFrameErr i)),
            (decode_frame (env.sendPktErr i) (env.recvFrameErr i)).2 ++
              uploadEvents env i ++
              [Event.sendFrame, Event.recvPacket (env.recvPacketErr i),
               Event.print "Error receiving encoded packet"])
        else
          .ok ((decode_frame (env.sendPktErr i) (env.recvFrameErr i)).2 ++
            uploadEvents env i ++
            [Event.sendFrame, Event.recvPacket (env.recvPacketErr i),
             Event.progress ((i : Int) + 1) env.dec.pix_fmt])
      else
        .ok ((decode_frame (env.sendPktErr i) (env.recvFrameErr i)).2 ++
          uploadEvents env i ++ [Event.progress ((i : Int) + 1) env.dec.pix_fmt])
  else
    .ok ((decode_frame (env.sendPktErr i) (env.recvFrameErr i)).2 ++
      uploadEvents env i ++ [Event.progress ((i : Int) + 1) env.dec.pix_fmt])

/- The for loop at line 208, starting at index i with the given number of
   remaining iterations. -/
def runLoopFrom (env : Env) (i : Nat) : Nat → Option ExitReason × List Event
  | 0 => (none, [])
  | fuel + 1 =>
    match loopIter env i with
    | .error (r, evs) => (some r, evs)
    | .ok evs =>
      let rest := runLoopFrom env (i + 1) fuel
      (rest.1, evs ++ rest.2)

/- src/main.c line 277: (double)(av_gettime() - time_start) / (1000.0*1000.0). -/
def timeSeconds (env : Env) : ℚ :=
  ((env.timeEnd - env.timeStart : Int) : ℚ) / (1000 * 1000)

/- The whole of main (src/main.c lines 69-278): the setup stages in
   sequence, then the decode loop, then the newline and the Time line.
   Falling off the end of main yields exit status 0 (`Outcome.ok`). -/
def runMain (env : Env) : Outcome × List Event :=
  match setupPre env with
  | .error (r, evs) => (r.toOutcome, evs)
  | .ok e1 =>
    match frameCtx env with
    | .error (r, e2) => (r.toOutcome, e1 ++ e2)
    | .ok e2 =>
      match encSetup env with
      | .error (r, e3) => (r.toOutcome, e1 ++ e2 ++ e3)
      | .ok e3 =>
        match runLoopFrom env 0 max_frames with
        | (some r, e4) => (r.toOutcome, e1 ++ e2 ++ e3 ++ e4)
        | (none, e4) =>
          (Outcome.ok, e1 ++ e2 ++ e3 ++ e4 ++ [Event.timeReport (timeSeconds env)])

/- The events of a stage, whether it succeeded or exited early. -/
def stageEventsOf : Except (ExitReason × List Event) (List Event) → List Event
  | .ok evs => evs
  | .error (_, evs) => evs

/- The i+1 values carried by the progress lines of a trace. -/
def progressNums (evs : List Event) : List Int :=
  evs.filterMap fun e =>
    match e with
    | Event.progress n _ => some n
    | _ => none

/- A hardware-decoded frame, as handed out by a hwaccel decoder. -/
def frameHW : Frame :=
  { width := 640, height := 480, format := .vulkan, hasHwFramesCtx := true }

/- A run in which every library call succeeds: five arguments, hardware
   decoding, device binding and encoding both switched off. -/
def envOk : Env :=
  { argv := ["dec_tx_test", "input.mkv", "device0", "0", "0"]
    openInputErr := 0
    findStreamErr := 0
    decAllocOk := true
    paramsErr := 0
    hwdevErr := 0
    openDecErr := 0
    pktAllocOk := true
    readFrameErr := 0
    probeSendErr := 0
    probeRecvErr := 0
    dec := { pix_fmt := .vulkan, sw_pix_fmt := .yuv420p, width := 640, height := 480 }
    hwaccel := true
    hwfcAllocOk := true
    hwfcInitErr := 0
    encAllocOk := true
    openEncErr := 0
    timeStart := 1000000
    timeEnd := 3500000
    sendPktErr := fun _ => 0
    recvFrameErr := fun _ => 0
    frameAt := fun _ => frameHW
    getBufErr := fun _ => 0
    swsErr := fun _ => 0
    hwGetBufErr := fun _ => 0
    transferErr := fun _ => 0
    sendFrameErr := fun _ => 0
    recvPacketErr := fun _ => 0 }

/- Same run with argv[3] = "1", requesting the device binding. -/
def envDev1 : Env :=
  { envOk with argv := ["dec_tx_test", "input.mkv", "device0", "1", "0"] }

/- A run invoked with argc = 4: three real arguments after the program
   name, the encode flag left out. -/
def envArgc4 : Env :=
  { envOk with argv := ["dec_tx_test", "input.mkv", "device0", "0"] }

/- A run invoked with argc = 3: only two real arguments after the
   program name. -/
def envArgc3 : Env :=
  { envOk with argv := ["dec_tx_test", "input.mkv", "device0"] }

/- A run with encoding switched on in which every avcodec_receive_packet
   call fails with AVERROR(EAGAIN) = -11. -/
def envRecvFail : Env :=
  { envOk with
    argv := ["dec_tx_test", "input.mkv", "device0", "0", "1"]
    recvPacketErr := fun _ => -11 }

/- A software-decoding run in which in_avctx->sw_pix_fmt (here GRAY8,
   enum code 8) differs from in_avctx->pix_fmt (YUV420P). -/
def envC10 : Env :=
  { envOk with
    hwaccel := false
    dec := { pix_fmt := .yuv420p, sw_pix_fmt := .other 8, width := 640, height := 480 }
    frameAt := fun _ =>
      { width := 640, height := 480, format := .yuv420p, hasHwFramesCtx := false } }

/- ------------------------------------------------------------------ -/
/- Helper lemmas                                                       -/
/- ------------------------------------------------------------------ -/

theorem toOutcome_ne_ok (r : ExitReason) : r.toOutcome ≠ Outcome.ok := by
  cases r <;> simp [ExitReason.toOutcome]

theorem progressNums_append (l₁ l₂ : List Event) :
    progressNums (l₁ ++ l₂) = progressNums l₁ ++ progressNums l₂ := by
  simp [progressNums, List.filterMap_append]

theorem decode_frame_snd (a b : Int) :
    (decode_frame a b).2 = [] ∨
    (decode_frame a b).2 = [Event.print "Error submitting a packet for decoding"] := by
  unfold decode_frame
  split
  · exact Or.inr rfl
  · exact Or.inl rfl

theorem uploadEvents_cases (env : Env) (i : Nat) :
    uploadEvents env i = [] ∨
    uploadEvents env i = [Event.hwGetBuffer, Event.upload (srcFormat env i)] := by
  unfold uploadEvents
  split
  · exact Or.inl rfl
  · exact Or.inr rfl

set_option maxHeartbeats 2000000 in
theorem setupPre_mem (env : Env) (e : Event)
    (h : e ∈ stageEventsOf (setupPre env)) :
    (∃ s, e = Event.print s) ∨ e = Event.setHwDeviceCtx := by
  unfold setupPre at h
  rcases decode_frame_snd env.probeSendErr env.probeRecvErr with hd | hd
  all_goals rw [hd] at h
  iterate 12 (all_goals (try split at h))
  all_goals (try simp only [stageEventsOf] at h)
  all_goals (try simp at h)
  all_goals (try casesm* _ ∨ _)
  all_goals simp_all

theorem frameCtx_mem (env : Env) (e : Event)
    (h : e ∈ stageEventsOf (frameCtx env)) :
    (∃ s, e = Event.print s) ∨ e = Event.reuseHwfc ∨
      e = Event.allocHwfc AVPixelFormat.vulkan (remap_pixfmt env.dec.pix_fmt)
        env.dec.width env.dec.height := by
  unfold frameCtx at h
  iterate 4 (all_goals (try split at h))
  all_goals (try simp only [stageEventsOf] at h)
  all_goals (try simp at h)
  all_goals (try casesm* _ ∨ _)
  all_goals simp_all

theorem encSetup_mem (env : Env) (e : Event)
    (h : e ∈ stageEventsOf (encSetup env)) :
    ∃ s, e = Event.print s := by
  unfold encSetup at h
  iterate 6 (all_goals (try split at h))
  all_goals (try simp only [stageEventsOf] at h)
  all_goals (try simp at h)
  all_goals simp_all

set_option maxHeartbeats 2000000 in
theorem loopIter_ok_progress (env : Env) (i : Nat) (evs : List Event)
    (h : loopIter env i = .ok evs) : progressNums evs = [(i : Int) + 1] := by
  unfold loopIter at h
  rcases decode_frame_snd (env.sendPktErr i) (env.recvFrameErr i) with hd | hd
  all_goals rw [hd] at h
  all_goals rcases uploadEvents_cases env i with hu | hu
  all_goals rw [hu] at h
  iterate 10 (all_goals (try split at h))
  all_goals first
    | exact Except.noConfusion h
    | (injection h with h2; subst h2; rfl)

set_option maxHeartbeats 2000000 in
theorem loopIter_error_progress (env : Env) (i : Nat) (r : ExitReason) (evs : List Event)
    (h : loopIter env i = .error (r, evs)) : progressNums evs = [] := by
  unfold loopIter at h
  rcases decode_frame_snd (env.sendPktErr i) (env.recvFrameErr i) with hd | hd
  all_goals rw [hd] at h
  all_goals rcases uploadEvents_cases env i with hu | hu
  all_goals rw [hu] at h
  iterate 10 (all_goals (try split at h))
  all_goals first
    | exact Except.noConfusion h
    | (injection h with h2; injection h2 with h3 h4; subst h4; rfl)

set_option maxHeartbeats 2000000 in
theorem loopIter_hw_no_upload (env : Env) (i : Nat) (f : AVPixelFormat)
    (hw : env.hwaccel = true) : Event.upload f ∉ stageEventsOf (loopIter env i) := by
  intro h
  have hu : uploadEvents env i = [] := by simp [uploadEvents, hw]
  unfold loopIter at h
  rcases decode_frame_snd (env.sendPktErr i) (env.recvFrameErr i) with hd | hd
  all_goals rw [hd, hu] at h
  iterate 10 (all_goals (try split at h))
  all_goals simp_all [stageEventsOf]

theorem runLoopFrom_progress (env : Env) :
    ∀ fuel i, ∃ m, m ≤ fuel ∧
      progressNums (runLoopFrom env i fuel).2 =
        (List.range' (i + 1) m).map Int.ofNat ∧
      ((runLoopFrom env i fuel).1 = none → m = fuel) := by
  intro fuel
  induction fuel with
  | zero =>
    intro i
    exact ⟨0, Nat.le_refl 0, by simp [runLoopFrom, progressNums], fun _ => rfl⟩
  | succ fuel ih =>
    intro i
    rcases hl : loopIter env i with ⟨r, evs⟩ | evs
    · refine ⟨0, Nat.zero_le _, ?_, ?_⟩
      · simp only [runLoopFrom, hl]
        simpa using loopIter_error_progress env i r evs hl
      · intro hnone
        simp [runLoopFrom, hl] at hnone
    · obtain ⟨m, hm, hprog, hnone⟩ := ih (i + 1)
      refine ⟨m + 1, Nat.succ_le_succ hm, ?_, ?_⟩
      · simp only [runLoopFrom, hl, progressNums_append]
        rw [loopIter_ok_progress env i evs hl, hprog]
        rw [List.range'_succ]
        simp only [List.map_cons, List.cons_append, List.nil_append, List.cons.injEq]
        exact ⟨by simp [Int.ofNat_eq_natCast]; try omega, by simp⟩
      · intro hnone2
        simp only [runLoopFrom, hl] at hnone2
        exact congrArg Nat.succ (hnone hnone2)

theorem mem_runLoopFrom (env : Env) (e : Event) :
    ∀ fuel i, e ∈ (runLoopFrom env i fuel).2 →
      ∃ j, e ∈ stageEventsOf (loopIter env j) := by
  intro fuel
  induction fuel with
  | zero =>
    intro i h
    simp [runLoopFrom] at h
  | succ fuel ih =>
    intro i h
    rcases hl : loopIter env i with ⟨r, evs⟩ | evs
    · simp only [runLoopFrom, hl] at h
      exact ⟨i, by rw [hl]; exact h⟩
    · simp only [runLoopFrom, hl] at h
      rcases List.mem_append.mp h with h1 | h2
      · exact ⟨i, by rw [hl]; exact h1⟩
      · exact ih (i + 1) h2

theorem progressNums_eq_nil (l : List Event) (H : ∀ n f, Event.progress n f ∉ l) :
    progressNums l = [] := by
  unfold progressNums
  refine List.filterMap_eq_nil_iff.mpr ?_
  intro e he
  cases e <;> first | rfl | exact absurd he (H _ _)

theorem setupPre_no_progress (env : Env) :
    progressNums (stageEventsOf (setupPre env)) = [] := by
  refine progressNums_eq_nil _ ?_
  intro n f hmem
  rcases setupPre_mem env _ hmem with ⟨s, hs⟩ | hs
  · exact Event.noConfusion hs
  · exact Event.noConfusion hs

theorem frameCtx_no_progress (env : Env) :
    progressNums (stageEventsOf (frameCtx env)) = [] := by
  refine progressNums_eq_nil _ ?_
  intro n f hmem
  rcases frameCtx_mem env _ hmem with ⟨s, hs⟩ | hs | hs
  · exact Event.noConfusion hs
  · exact Event.noConfusion hs
  · exact Event.noConfusion hs

theorem encSetup_no_progress (env : Env) :
    progressNums (stageEventsOf (encSetup env)) = [] := by
  refine progressNums_eq_nil _ ?_
  intro n f hmem
  obtain ⟨s, hs⟩ := encSetup_mem env _ hmem
  exact Event.noConfusion hs

theorem upload_not_setupPre (env : Env) (f : AVPixelFormat) :
    Event.upload f ∉ stageEventsOf (setupPre env) := by
  intro hmem
  rcases setupPre_mem env _ hmem with ⟨s, hs⟩ | hs
  · exact Event.noConfusion hs
  · exact Event.noConfusion hs

theorem upload_not_frameCtx (env : Env) (f : AVPixelFormat) :
    Event.upload f ∉ stageEventsOf (frameCtx env) := by
  intro hmem
  rcases frameCtx_mem env _ hmem with ⟨s, hs⟩ | hs | hs
  · exact Event.noConfusion hs
  · exact Event.noConfusion hs
  · exact Event.noConfusion hs

theorem upload_not_encSetup (env : Env) (f : AVPixelFormat) :
    Event.upload f ∉ stageEventsOf (encSetup env) := by
  intro hmem
  obtain ⟨s, hs⟩ := encSetup_mem env _ hmem
  exact Event.noConfusion hs

/- ------------------------------------------------------------------ -/
/- Claim theorems                                                      -/
/- ------------------------------------------------------------------ -/

/-- C1: remap_pixfmt is a total static lookup: it sends AV_PIX_FMT_YUV420P
to AV_PIX_FMT_NV12, AV_PIX_FMT_GBRAP16 to AV_PIX_FMT_RGBA64,
AV_PIX_FMT_RGB48LE and AV_PIX_FMT_RGB48BE to AV_PIX_FMT_GBRP16,
AV_PIX_FMT_BGR0 to AV_PIX_FMT_RGB0, and every other format to itself. -/
theorem remap_pixfmt_lookup (f : AVPixelFormat)
    (h1 : f ≠ AVPixelFormat.yuv420p) (h2 : f ≠ AVPixelFormat.gbrap16)
    (h3 : f ≠ AVPixelFormat.rgb48le) (h4 : f ≠ AVPixelFormat.rgb48be)
    (h5 : f ≠ AVPixelFormat.bgr0) :
    remap_pixfmt AVPixelFormat.yuv420p = AVPixelFormat.nv12 ∧
    remap_pixfmt AVPixelFormat.gbrap16 = AVPixelFormat.rgba64 ∧
    remap_pixfmt AVPixelFormat.rgb48le = AVPixelFormat.gbrp16 ∧
    remap_pixfmt AVPixelFormat.rgb48be = AVPixelFormat.gbrp16 ∧
    remap_pixfmt AVPixelFormat.bgr0 = AVPixelFormat.rgb0 ∧
    remap_pixfmt f = f := by
  refine ⟨rfl, rfl, rfl, rfl, rfl, ?_⟩
  cases f <;> first | rfl | simp_all

theorem remap_pixfmt_lookup_witness :
    remap_pixfmt AVPixelFormat.yuv420p = AVPixelFormat.nv12 ∧
    remap_pixfmt AVPixelFormat.gbrap16 = AVPixelFormat.rgba64 ∧
    remap_pixfmt AVPixelFormat.rgb48le = AVPixelFormat.gbrp16 ∧
    remap_pixfmt AVPixelFormat.rgb48be = AVPixelFormat.gbrp16 ∧
    remap_pixfmt AVPixelFormat.bgr0 = AVPixelFormat.rgb0 ∧
    remap_pixfmt AVPixelFormat.nv12 = AVPixelFormat.nv12 :=
  remap_pixfmt_lookup AVPixelFormat.nv12 (by decide) (by decide) (by decide)
    (by decide) (by decide)

/-- C8: remap_pixfmt is idempotent: every value it returns is one of its
fixed points. -/
theorem remap_pixfmt_idempotent (f : AVPixelFormat) :
    remap_pixfmt (remap_pixfmt f) = remap_pixfmt f := by
  cases f <;> rfl

/-- C3: the claim says the frame is submitted to the encoder if and only
if argv[4] is present and equals "1", the same condition as the banner.
In the code the banner guard (line 203) is argc > 4 while the encode
guard (line 252) is argc > 3: invoked with argc = 4 the program prints
"Decoding 1000 frames" yet still evaluates strcmp(argv[4], "1"),
dereferencing the argv null terminator - undefined behaviour. -/
theorem encode_guard_argc_mismatch :
    Event.print "Decoding 1000 frames" ∈ (runMain envArgc4).2 ∧
    (runMain envArgc4).1 = Outcome.ub := by decide

/-- C9: the claim says argv[k] is dereferenced only when k < argc.  With
argc = 3 the code reaches line 109 and evaluates strcmp(argv[3], "1"),
dereferencing the argv null terminator - undefined behaviour. -/
theorem argv_read_out_of_bounds :
    (runMain envArgc3).1 = Outcome.ub := by decide

set_option maxRecDepth 200000 in
/-- C4: the claim says every library failure, in particular a failing
avcodec_receive_packet, is detected and causes an error exit.  In the
code the result of avcodec_receive_packet (line 259) is discarded: err is
not assigned, the guard at lines 260-263 re-tests the stale err from
avcodec_send_frame, and the run completes normally although every
receive call failed with AVERROR(EAGAIN) = -11. -/
theorem recv_packet_failure_ignored :
    (runMain envRecvFail).1 = Outcome.ok ∧
    Event.recvPacket (-11) ∈ (runMain envRecvFail).2 := by decide

set_option maxHeartbeats 2000000 in
/-- C2: if the probed decoder pixel format is not hardware accelerated,
the frame-context stage configures a fresh frames context with format
AV_PIX_FMT_VULKAN, sw_format = remap_pixfmt(pix_fmt) and the decoder's
width and height, and every completed loop iteration uploads the
(possibly converted) software frame via av_hwframe_get_buffer and
av_hwframe_transfer_data; if it is hardware accelerated, the stage
reuses the decoder's hw_frames_ctx and the run never uploads. -/
theorem hwfc_setup_and_upload (env : Env) :
    (env.hwaccel = false →
      (∀ evs, frameCtx env = .ok evs →
        Event.allocHwfc AVPixelFormat.vulkan (remap_pixfmt env.dec.pix_fmt)
          env.dec.width env.dec.height ∈ evs) ∧
      (∀ i evs, loopIter env i = .ok evs →
        Event.hwGetBuffer ∈ evs ∧ Event.upload (srcFormat env i) ∈ evs)) ∧
    (env.hwaccel = true →
      frameCtx env = .ok [Event.print "Hardware decoding", Event.reuseHwfc] ∧
      ∀ f, Event.upload f ∉ (runMain env).2) := by
  constructor
  · intro hsw
    constructor
    · intro evs h
      unfold frameCtx at h
      rw [hsw] at h
      simp only [Bool.not_false, if_true] at h
      split at h
      · exact Except.noConfusion h
      split at h
      · exact Except.noConfusion h
      injection h with h2
      subst h2
      simp
    · intro i evs h
      have hu : uploadEvents env i = [Event.hwGetBuffer, Event.upload (srcFormat env i)] := by
        simp [uploadEvents, hsw]
      unfold loopIter at h
      rcases decode_frame_snd (env.sendPktErr i) (env.recvFrameErr i) with hd | hd
      all_goals rw [hd, hu] at h
      iterate 10 (all_goals (try split at h))
      all_goals first
        | exact Except.noConfusion h
        | (injection h with h2; subst h2; constructor <;> simp)
  · intro hhw
    constructor
    · unfold frameCtx
      rw [hhw]
      simp
    · intro f hmem
      rcases hsp : setupPre env with ⟨r, e0⟩ | e1
      · simp only [runMain, hsp] at hmem
        exact upload_not_setupPre env f (by rw [hsp]; exact hmem)
      · have h1 : Event.upload f ∉ e1 := fun hx =>
          upload_not_setupPre env f (by rw [hsp]; exact hx)
        rcases hfc : frameCtx env with ⟨r, e0⟩ | e2
        · simp only [runMain, hsp, hfc, List.mem_append] at hmem
          rcases hmem with hx | hx
          · exact h1 hx
          · exact upload_not_frameCtx env f (by rw [hfc]; exact hx)
        · have h2 : Event.upload f ∉ e2 := fun hx =>
            upload_not_frameCtx env f (by rw [hfc]; exact hx)
          rcases hec : encSetup env with ⟨r, e0⟩ | e3
          · simp only [runMain, hsp, hfc, hec, List.mem_append] at hmem
            rcases hmem with (hx | hx) | hx
            · exact h1 hx
            · exact h2 hx
            · exact upload_not_encSetup env f (by rw [hec]; exact hx)
          · have h3 : Event.upload f ∉ e3 := fun hx =>
              upload_not_encSetup env f (by rw [hec]; exact hx)
            have hloop : Event.upload f ∉ (runLoopFrom env 0 max_frames).2 := by
              intro hx
              obtain ⟨j, hj⟩ := mem_runLoopFrom env (Event.upload f) max_frames 0 hx
              exact loopIter_hw_no_upload env j f hhw hj
            rcases hrl : runLoopFrom env 0 max_frames with ⟨o, e4⟩
            rw [hrl] at hloop
            cases o with
            | some r =>
              simp only [runMain, hsp, hfc, hec, hrl, List.mem_append] at hmem
              rcases hmem with ((hx | hx) | hx) | hx
              · exact h1 hx
              · exact h2 hx
              · exact h3 hx
              · exact hloop hx
            | none =>
              simp only [runMain, hsp, hfc, hec, hrl, List.mem_append] at hmem
              rcases hmem with (((hx | hx) | hx) | hx) | hx
              · exact h1 hx
              · exact h2 hx
              · exact h3 hx
              · exact hloop hx
              · simp at hx

theorem hwfc_setup_and_upload_witness :
    frameCtx envOk = Except.ok [Event.print "Hardware decoding", Event.reuseHwfc] :=
  ((hwfc_setup_and_upload envOk).2 rfl).1

/-- C5: the decode loop executes at most max_frames = 1000 iterations;
the progress lines of any run are 1, 2, ..., m for some m at most 1000,
and a run that falls off the end of main (exit status 0) completed
exactly 1000 iterations. -/
theorem decode_loop_bounded (env : Env) :
    ∃ m, m ≤ max_frames ∧
      progressNums (runMain env).2 = (List.range' 1 m).map Int.ofNat ∧
      ((runMain env).1 = Outcome.ok → m = max_frames) := by
  rcases hsp : setupPre env with ⟨r, e0⟩ | e1
  · refine ⟨0, Nat.zero_le _, ?_, ?_⟩
    · simp only [runMain, hsp]
      have h0 := setupPre_no_progress env
      rw [hsp] at h0
      simpa [stageEventsOf] using h0
    · intro hok
      simp only [runMain, hsp] at hok
      exact absurd hok (toOutcome_ne_ok r)
  · have he1 : progressNums e1 = [] := by
      have h0 := setupPre_no_progress env
      rw [hsp] at h0
      simpa [stageEventsOf] using h0
    rcases hfc : frameCtx env with ⟨r, e0⟩ | e2
    · refine ⟨0, Nat.zero_le _, ?_, ?_⟩
      · have h0 := frameCtx_no_progress env
        rw [hfc] at h0
        simp only [stageEventsOf] at h0
        simp [runMain, hsp, hfc, progressNums_append, he1, h0]
      · intro hok
        simp only [runMain, hsp, hfc] at hok
        exact absurd hok (toOutcome_ne_ok r)
    · have he2 : progressNums e2 = [] := by
        have h0 := frameCtx_no_progress env
        rw [hfc] at h0
        simpa [stageEventsOf] using h0
      rcases hec : encSetup env with ⟨r, e0⟩ | e3
      · refine ⟨0, Nat.zero_le _, ?_, ?_⟩
        · have h0 := encSetup_no_progress env
          rw [hec] at h0
          simp only [stageEventsOf] at h0
          simp [runMain, hsp, hfc, hec, progressNums_append, he1, he2, h0]
        · intro hok
          simp only [runMain, hsp, hfc, hec] at hok
          exact absurd hok (toOutcome_ne_ok r)
      · have he3 : progressNums e3 = [] := by
          have h0 := encSetup_no_progress env
          rw [hec] at h0
          simpa [stageEventsOf] using h0
        obtain ⟨m, hm, hprog, hnone⟩ := runLoopFrom_progress env max_frames 0
        rcases hrl : runLoopFrom env 0 max_frames with ⟨o, e4⟩
        rw [hrl] at hprog hnone
        cases o with
        | some r =>
          refine ⟨m, hm, ?_, ?_⟩
          · simp only [runMain, hsp, hfc, hec, hrl, progressNums_append, he1, he2, he3]
            simpa using hprog
          · intro hok
            simp only [runMain, hsp, hfc, hec, hrl] at hok
            exact absurd hok (toOutcome_ne_ok r)
        | none =>
          refine ⟨m, hm, ?_, fun _ => hnone rfl⟩
          simp only [runMain, hsp, hfc, hec, hrl, progressNums_append, he1, he2, he3]
          simpa [progressNums] using hprog

theorem decode_loop_bounded_witness :
    ∃ m, m ≤ max_frames ∧
      progressNums (runMain envOk).2 = (List.range' 1 m).map Int.ofNat ∧
      ((runMain envOk).1 = Outcome.ok → m = max_frames) :=
  decode_loop_bounded envOk

set_option maxHeartbeats 2000000 in
/-- C6: in any run whose setup reaches the decoder open, the decoder's
hw_device_ctx is bound to the created Vulkan device if and only if
argv[3] equals "1" (src/main.c lines 109-110). -/
theorem hw_device_binding (env : Env) (evs : List Event) (h : setupPre env = .ok evs) :
    (Event.setHwDeviceCtx ∈ evs ↔ env.argv[3]? = some "1") := by
  rcases decode_frame_snd env.probeSendErr env.probeRecvErr with hd | hd
  all_goals unfold setupPre at h
  all_goals rw [hd] at h
  all_goals rcases ha : env.argv[3]? with _ | s
  all_goals rw [ha] at h
  all_goals simp only [strcmpEq1] at h
  iterate 14 (all_goals (try split at h))
  all_goals first
    | exact Except.noConfusion h
    | (injection h with h2; subst h2; simp_all [beq_iff_eq])

theorem hw_device_binding_witness :
    (Event.setHwDeviceCtx ∈ [Event.setHwDeviceCtx] ↔ envDev1.argv[3]? = some "1") :=
  hw_device_binding envDev1 [Event.setHwDeviceCtx] rfl

/-- C7: a run that completes the decode loop ends its output with the
Time line, whose value is the difference between the av_gettime reading
taken after the loop and the one taken before it, divided by 1000000. -/
theorem time_reported (env : Env) (h : (runMain env).1 = Outcome.ok) :
    (runMain env).2.getLast? =
      some (Event.timeReport (((env.timeEnd - env.timeStart : Int) : ℚ) / 1000000)) := by
  rcases hsp : setupPre env with ⟨r, e0⟩ | e1
  · simp only [runMain, hsp] at h
    exact absurd h (toOutcome_ne_ok r)
  · rcases hfc : frameCtx env with ⟨r, e0⟩ | e2
    · simp only [runMain, hsp, hfc] at h
      exact absurd h (toOutcome_ne_ok r)
    · rcases hec : encSetup env with ⟨r, e0⟩ | e3
      · simp only [runMain, hsp, hfc, hec] at h
        exact absurd h (toOutcome_ne_ok r)
      · rcases hrl : runLoopFrom env 0 max_frames with ⟨o, e4⟩
        cases o with
        | some r =>
          simp only [runMain, hsp, hfc, hec, hrl] at h
          exact absurd h (toOutcome_ne_ok r)
        | none =>
          simp only [runMain, hsp, hfc, hec, hrl]
          rw [List.getLast?_concat]
          norm_num [timeSeconds]

set_option maxRecDepth 200000 in
theorem time_reported_witness :
    (runMain envOk).2.getLast? =
      some (Event.timeReport (((envOk.timeEnd - envOk.timeStart : Int) : ℚ) / 1000000)) :=
  time_reported envOk (by decide)

set_option maxHeartbeats 2000000 in
/-- C10 amended: in every completed software-decoding loop iteration
whose decoded frame has no hw_frames_ctx, the frame passed to
av_hwframe_transfer_data has pixel format
remap_pixfmt(in_avctx->sw_pix_fmt); this equals the frames context's
configured sw_format, remap_pixfmt(in_avctx->pix_fmt), exactly when the
two remapped formats coincide (in particular when sw_pix_fmt = pix_fmt),
and not in general. -/
theorem upload_format_eq_remap_sw (env : Env) (i : Nat) (evs : List Event)
    (hsw : env.hwaccel = false)
    (hfr : (env.frameAt i).hasHwFramesCtx = false)
    (h : loopIter env i = .ok evs) :
    Event.upload (remap_pixfmt env.dec.sw_pix_fmt) ∈ evs := by
  have hsrc : srcFormat env i = remap_pixfmt env.dec.sw_pix_fmt := by
    by_cases hc : (env.frameAt i).format = remap_pixfmt env.dec.sw_pix_fmt
    · simp [srcFormat, convertNeeded, hfr, hc]
    · simp [srcFormat, convertNeeded, hfr, bne_iff_ne, hc]
  have hu : uploadEvents env i = [Event.hwGetBuffer, Event.upload (srcFormat env i)] := by
    simp [uploadEvents, hsw]
  unfold loopIter at h
  rcases decode_frame_snd (env.sendPktErr i) (env.recvFrameErr i) with hd | hd
  all_goals rw [hd, hu] at h
  iterate 10 (all_goals (try split at h))
  all_goals first
    | exact Except.noConfusion h
    | (injection h with h2; subst h2; rw [← hsrc]; simp)

theorem upload_format_eq_remap_sw_witness :
    Event.upload (remap_pixfmt envC10.dec.sw_pix_fmt) ∈
      [Event.hwGetBuffer, Event.upload (AVPixelFormat.other 8),
       Event.progress 1 AVPixelFormat.yuv420p] :=
  upload_format_eq_remap_sw envC10 0
    [Event.hwGetBuffer, Event.upload (AVPixelFormat.other 8),
     Event.progress 1 AVPixelFormat.yuv420p] rfl rfl rfl

/-- C8 witness instance at a concrete format. -/
theorem remap_pixfmt_idempotent_witness :
    remap_pixfmt (remap_pixfmt AVPixelFormat.yuv420p) =
      remap_pixfmt AVPixelFormat.yuv420p :=
  remap_pixfmt_idempotent AVPixelFormat.yuv420p

set_option maxRecDepth 200000 in
/-- C10 counterexample: in the run envC10 the frames context is
configured with sw_format = remap_pixfmt(pix_fmt) = NV12 (line 152), yet
the frame passed to av_hwframe_transfer_data was converted to
remap_pixfmt(sw_pix_fmt) = GRAY8 (lines 217-220), so the uploaded frame's
format differs from the context's configured software format. -/
theorem upload_format_mismatch :
    Event.allocHwfc AVPixelFormat.vulkan AVPixelFormat.nv12 640 480 ∈ (runMain envC10).2 ∧
    Event.upload (AVPixelFormat.other 8) ∈ (runMain envC10).2 ∧
    AVPixelFormat.other 8 ≠ AVPixelFormat.nv12 := by decide

end DecTxTest
